import Mathlib

/-!
Shallow embedding of the Kafka Collector (src/main.rs): an HTTP-to-Kafka
bridge.  The embedding covers endpoint-table validation, route
registration and dispatch, the per-request forwarding handler, the startup
connectivity check, and environment-variable resolution.
-/

namespace Collector

/-- One configured endpoint rule (struct `EndpointConfig` in main.rs):
a URL path mapped to a Kafka topic and partition. -/
structure EndpointConfig where
  path : String
  kafka_topic : String
  kafka_partition : Int
deriving DecidableEq, Repr

/-- The per-rule checks of the validation loop (main.rs lines 178-187),
in source order: empty path, then empty topic, then duplicate path
against the set of paths already seen.  Returns the error message the
code would return, or none when the rule passes. -/
def ruleError (seen : List String) (e : EndpointConfig) : Option String :=
  if e.path = "" then some "Endpoint path cannot be empty"
  else if e.kafka_topic = "" then
    some ("Kafka topic for path " ++ e.path ++ " cannot be empty")
  else if e.path ∈ seen then some ("Duplicate path: " ++ e.path)
  else none

/-- The validation loop of main.rs (lines 177-188): iterate the rules in
order, accumulating the set of seen paths, stopping at the first failing
check. -/
def validateFrom (seen : List String) : List EndpointConfig → Except String Unit
  | [] => Except.ok ()
  | e :: rest =>
    match ruleError seen e with
    | some msg => Except.error msg
    | none => validateFrom (seen ++ [e.path]) rest

/-- Validation of a whole configuration, starting from an empty seen set
(`let mut paths = HashSet::new()`). -/
def validateEndpoints (rules : List EndpointConfig) : Except String Unit :=
  validateFrom [] rules

/-- The path of the first rule whose kafka_topic is empty, if any. -/
def firstEmptyTopic : List EndpointConfig → Option String
  | [] => none
  | e :: rest => if e.kafka_topic = "" then some e.path else firstEmptyTopic rest

/-- A JSON value, as produced by the serde_json::json! bodies in the
handler. -/
inductive Json where
  | str (s : String)
  | int (n : Int)
  | obj (fields : List (String × Json))

/-- An HTTP response body: plain text (health check), a JSON document
(forwarding handler) or empty (router-level 404). -/
inductive RespBody where
  | text (s : String)
  | json (j : Json)
  | empty

/-- An HTTP response: status code and body. -/
structure HttpResp where
  status : Nat
  body : RespBody

/-- HTTP method, as far as the registered routes distinguish them. -/
inductive Method where
  | get
  | post
deriving DecidableEq, Repr

/-- The Kafka record built by the handler (main.rs lines 260-263):
`FutureRecord::to(&topic).partition(partition).payload(body).key("")`. -/
structure ProducerRecord where
  topic : String
  partition : Int
  payload : List UInt8
  key : String
deriving DecidableEq, Repr

/-- Outcome of `producer.send(record, ..).await`: either a delivery
confirmation (rdkafka reports partition and offset) or a broker error
rendered as a string (`e.to_string()`). -/
inductive DeliveryResult where
  | delivered (partition : Int) (offset : Int)
  | failed (err : String)

/-- The JSON success body of the handler (main.rs lines 269-274). -/
def successJson (topic : String) (partition : Int) : Json :=
  Json.obj [("status", Json.str "success"),
            ("message", Json.str "Message sent to Kafka"),
            ("topic", Json.str topic),
            ("partition", Json.int partition)]

/-- The JSON error body of the handler (main.rs lines 278-282). -/
def errorJson (err : String) : Json :=
  Json.obj [("status", Json.str "error"),
            ("message", Json.str "Failed to send message to Kafka"),
            ("error", Json.str err)]

/-- The health check handler (main.rs lines 89-91): always 200 "OK". -/
def health_check : HttpResp :=
  { status := 200, body := RespBody.text "OK" }

/-- The default response of the actix App when no registered route
matches: 404 with empty body. -/
def notFound : HttpResp :=
  { status := 404, body := RespBody.empty }

/-- The per-endpoint handler closure (main.rs lines 255-286): build the
record from the request body with the captured topic/partition and an
empty key, send it once, and map the outcome to a response.  Returns the
list of publish calls made (always exactly the one record) together with
the response. -/
def endpointHandler (topic : String) (partition : Int)
    (send : ProducerRecord → DeliveryResult) (body : List UInt8) :
    List ProducerRecord × HttpResp :=
  let record : ProducerRecord :=
    { topic := topic, partition := partition, payload := body, key := "" }
  match send record with
  | DeliveryResult.delivered _ _ =>
    ([record], { status := 200, body := RespBody.json (successJson topic partition) })
  | DeliveryResult.failed e =>
    ([record], { status := 500, body := RespBody.json (errorJson e) })

/-- A registered route: method guard plus exact path. -/
structure Route where
  method : Method
  path : String
deriving DecidableEq, Repr

/-- The routes registered on the App (main.rs lines 241-288): the fixed
GET /health route first, then one POST route per configured rule, in
configuration order. -/
def registeredRoutes (rules : List EndpointConfig) : List Route :=
  { method := Method.get, path := "/health" } ::
    rules.map (fun e => { method := Method.post, path := e.path })

/-- Endpoint-table lookup: first rule whose path matches exactly, giving
its (topic, partition). -/
def lookupEndpoint (rules : List EndpointConfig) (p : String) :
    Option (String × Int) :=
  (rules.find? (fun e => e.path == p)).map (fun e => (e.kafka_topic, e.kafka_partition))

/-- Request dispatch: the GET /health route is registered first; each
configured rule is a POST route with an exact path; a request matching no
route gets the router-level 404.  Returns the publish calls made while
handling the request and the response. -/
def dispatch (rules : List EndpointConfig) (send : ProducerRecord → DeliveryResult)
    (m : Method) (p : String) (body : List UInt8) :
    List ProducerRecord × HttpResp :=
  if m = Method.get ∧ p = "/health" then ([], health_check)
  else if m = Method.post then
    match rules.find? (fun e => e.path == p) with
    | some e => endpointHandler e.kafka_topic e.kafka_partition send body
    | none => ([], notFound)
  else ([], notFound)

/-- One broker's identity in cluster metadata. -/
structure BrokerInfo where
  id : Int
  host : String
  port : Int

/-- Outcome of `producer.client().fetch_metadata(None, 5s)`. -/
inductive MetadataResult where
  | ok (brokers : List BrokerInfo)
  | err (e : String)

/-- Log severity used by the connectivity check. -/
inductive LogLevel where
  | info
  | warn
  | error
deriving DecidableEq, Repr

/-- The startup connectivity check (main.rs lines 205-221): every
outcome only produces log lines; none aborts. -/
def connectivityCheck (m : MetadataResult) : List (LogLevel × String) :=
  match m with
  | MetadataResult.ok brokers =>
    if brokers.length = 0 then
      [(LogLevel.warn, "No Kafka brokers found in metadata")]
    else
      (LogLevel.info, "Successfully connected to Kafka cluster with " ++
        toString brokers.length ++ " brokers") ::
      brokers.map (fun b =>
        (LogLevel.info, "  Broker " ++ toString b.id ++ ": " ++ b.host ++ ":" ++
          toString b.port))
  | MetadataResult.err e =>
    [(LogLevel.warn, "Could not fetch Kafka metadata (connection may be unstable): " ++ e),
     (LogLevel.info, "Server will start anyway, but Kafka operations may fail")]

/-- How the startup sequence after config loading can end. -/
inductive StartupOutcome where
  | validationError (msg : String)
  | producerError (msg : String)
  | serving (logs : List (LogLevel × String)) (routes : List Route)

/-- The startup sequence of main.rs after the config file is parsed:
validate the rules (any error returns before the server starts), create
the producer (failure is fatal), run the connectivity check (result only
logged), then register the routes and serve. -/
def startServer (rules : List EndpointConfig) (producerCreation : Except String Unit)
    (meta : MetadataResult) : StartupOutcome :=
  match validateEndpoints rules with
  | Except.error msg => StartupOutcome.validationError msg
  | Except.ok () =>
    match producerCreation with
    | Except.error e =>
      StartupOutcome.producerError ("Kafka producer creation failed: " ++ e)
    | Except.ok () =>
      StartupOutcome.serving (connectivityCheck meta) (registeredRoutes rules)

/-- Environment lookup: `std::env::var` modelled over an association
list, none when the variable is unset. -/
def getEnv (env : List (String × String)) (k : String) : Option String :=
  (env.find? (fun kv => kv.1 == k)).map (fun kv => kv.2)

/-- The runtime settings resolved from the environment (main.rs lines
150-165). -/
structure RuntimeConfig where
  host : String
  port : String
  kafka_servers : String
  message_timeout : String
  delivery_timeout : String
  request_timeout : String
  socket_timeout : String
deriving DecidableEq, Repr

/-- Environment resolution (main.rs lines 150-165): HOST defaults to
127.0.0.1, or 0.0.0.0 when PUBLIC_ACCESS is exactly "true"; PORT defaults
to "8080"; the bootstrap servers and the four Kafka timeouts default via
unwrap_or_else.  Total: an unset variable is never an error. -/
def resolveConfig (env : List (String × String)) : RuntimeConfig :=
  { host :=
      match getEnv env "HOST" with
      | some h => h
      | none =>
        if (getEnv env "PUBLIC_ACCESS").getD "false" = "true" then "0.0.0.0"
        else "127.0.0.1"
    port := (getEnv env "PORT").getD "8080"
    kafka_servers := (getEnv env "KAFKA_BOOTSTRAP_SERVERS").getD "localhost:9093"
    message_timeout := (getEnv env "KAFKA_MESSAGE_TIMEOUT_MS").getD "5000"
    delivery_timeout := (getEnv env "KAFKA_DELIVERY_TIMEOUT_MS").getD "5000"
    request_timeout := (getEnv env "KAFKA_REQUEST_TIMEOUT_MS").getD "5000"
    socket_timeout := (getEnv env "KAFKA_SOCKET_TIMEOUT_MS").getD "5000" }

/-- The bind address `format!("{}:{}", host, port)`. -/
def serverAddr (c : RuntimeConfig) : String :=
  c.host ++ ":" ++ c.port

/-! ### Lemmas about the validation loop -/

lemma ruleError_eq_none_iff (seen : List String) (e : EndpointConfig) :
    ruleError seen e = none ↔
      e.path ≠ "" ∧ e.kafka_topic ≠ "" ∧ e.path ∉ seen := by
  unfold ruleError
  split_ifs with h1 h2 h3 <;> simp_all

lemma validateFrom_cons_error (seen : List String) (e : EndpointConfig)
    (rest : List EndpointConfig) (msg : String) (h : ruleError seen e = some msg) :
    validateFrom seen (e :: rest) = Except.error msg := by
  simp [validateFrom, h]

lemma validateFrom_cons_ok (seen : List String) (e : EndpointConfig)
    (rest : List EndpointConfig) (h : ruleError seen e = none) :
    validateFrom seen (e :: rest) = validateFrom (seen ++ [e.path]) rest := by
  simp [validateFrom, h]

lemma validateFrom_eq_ok_iff (rules : List EndpointConfig) :
    ∀ seen : List String,
      validateFrom seen rules = Except.ok () ↔
        (∀ r ∈ rules, r.path ≠ "" ∧ r.kafka_topic ≠ "" ∧ r.path ∉ seen) ∧
          (rules.map EndpointConfig.path).Nodup := by
  induction rules with
  | nil => intro seen; simp [validateFrom]
  | cons e rest ih =>
    intro seen
    rcases hre : ruleError seen e with _ | msg
    · rw [validateFrom_cons_ok seen e rest hre, ih (seen ++ [e.path])]
      rw [ruleError_eq_none_iff] at hre
      obtain ⟨hp, ht, hs⟩ := hre
      constructor
      · rintro ⟨hall, hnd⟩
        refine ⟨?_, ?_⟩
        · intro r hr
          rcases List.mem_cons.mp hr with rfl | hr
          · exact ⟨hp, ht, hs⟩
          · obtain ⟨h1, h2, h3⟩ := hall r hr
            exact ⟨h1, h2, fun hmem => h3 (List.mem_append_left _ hmem)⟩
        · refine List.nodup_cons.mpr ⟨?_, hnd⟩
          intro hmem
          obtain ⟨r, hr, hrp⟩ := List.mem_map.mp hmem
          obtain ⟨_, _, h3⟩ := hall r hr
          exact h3 (List.mem_append_right _ (by simp [hrp]))
      · rintro ⟨hall, hnd⟩
        obtain ⟨hhd, hnd'⟩ := List.nodup_cons.mp hnd
        refine ⟨?_, hnd'⟩
        intro r hr
        obtain ⟨h1, h2, h3⟩ := hall r (List.mem_cons_of_mem _ hr)
        refine ⟨h1, h2, ?_⟩
        intro hmem
        rcases List.mem_append.mp hmem with hmem | hmem
        · exact h3 hmem
        · have : r.path = e.path := by simpa using hmem
          exact hhd (this ▸ List.mem_map_of_mem EndpointConfig.path hr)
    · rw [validateFrom_cons_error seen e rest msg hre]
      constructor
      · intro h; cases h
      · rintro ⟨hall, -⟩
        obtain ⟨h1, h2, h3⟩ := hall e (List.mem_cons_self e rest)
        have : ruleError seen e = none :=
          (ruleError_eq_none_iff seen e).mpr ⟨h1, h2, h3⟩
        rw [this] at hre
        cases hre

lemma find?_eq_of_mem_nodup (rules : List EndpointConfig) (e : EndpointConfig)
    (he : e ∈ rules) (hnd : (rules.map EndpointConfig.path).Nodup) :
    rules.find? (fun r => r.path == e.path) = some e := by
  induction rules with
  | nil => cases he
  | cons r rest ih =>
    obtain ⟨hhd, hnd'⟩ := List.nodup_cons.mp hnd
    rcases List.mem_cons.mp he with rfl | he'
    · exact List.find?_cons_of_pos _ (by simp)
    · have hne : r.path ≠ e.path := by
        intro hcontra
        exact hhd (hcontra ▸ List.mem_map_of_mem EndpointConfig.path he')
      rw [List.find?_cons_of_neg _ (by simpa using hne)]
      exact ih he' hnd'

lemma validateFrom_dup (rules : List EndpointConfig) :
    ∀ seen : List String,
      (∀ r ∈ rules, r.path ≠ "" ∧ r.kafka_topic ≠ "") →
      ¬ ((rules.map EndpointConfig.path).Nodup ∧ ∀ r ∈ rules, r.path ∉ seen) →
      ∃ p, 2 ≤ (seen ++ rules.map EndpointConfig.path).count p ∧
        validateFrom seen rules = Except.error ("Duplicate path: " ++ p) := by
  induction rules with
  | nil => intro seen _ hbad; simp at hbad
  | cons e rest ih =>
    intro seen hne hbad
    obtain ⟨hp, ht⟩ := hne e (List.mem_cons_self e rest)
    by_cases hs : e.path ∈ seen
    · have hre : ruleError seen e = some ("Duplicate path: " ++ e.path) := by
        unfold ruleError
        rw [if_neg hp, if_neg ht, if_pos hs]
      refine ⟨e.path, ?_, validateFrom_cons_error seen e rest _ hre⟩
      have h1 : 1 ≤ seen.count e.path := List.count_pos_iff.mpr hs
      simp only [List.map_cons, List.count_append, List.count_cons_self]
      omega
    · have hre : ruleError seen e = none :=
        (ruleError_eq_none_iff seen e).mpr ⟨hp, ht, hs⟩
      rw [validateFrom_cons_ok seen e rest hre]
      have hbad' : ¬ ((rest.map EndpointConfig.path).Nodup ∧
          ∀ r ∈ rest, r.path ∉ seen ++ [e.path]) := by
        rintro ⟨hnd', hnotin'⟩
        apply hbad
        constructor
        · simp only [List.map_cons]
          refine List.nodup_cons.mpr ⟨?_, hnd'⟩
          intro hmem
          obtain ⟨r, hr, hrp⟩ := List.mem_map.mp hmem
          exact hnotin' r hr (List.mem_append_right _ (by simp [hrp]))
        · intro r hr
          rcases List.mem_cons.mp hr with rfl | hr'
          · exact hs
          · exact fun hm => hnotin' r hr' (List.mem_append_left _ hm)
      obtain ⟨p, hc, hv⟩ :=
        ih (seen ++ [e.path]) (fun r hr => hne r (List.mem_cons_of_mem _ hr)) hbad'
      refine ⟨p, ?_, hv⟩
      simpa [List.append_assoc] using hc

lemma validateFrom_emptyPath (rules : List EndpointConfig) :
    ∀ seen : List String,
      (∀ r ∈ rules, r.kafka_topic ≠ "") →
      (rules.map EndpointConfig.path).Nodup →
      (∀ r ∈ rules, r.path ∉ seen) →
      (∃ r ∈ rules, r.path = "") →
      validateFrom seen rules = Except.error "Endpoint path cannot be empty" := by
  induction rules with
  | nil => intro seen _ _ _ hex; simp at hex
  | cons e rest ih =>
    intro seen htop hnd hseen hex
    by_cases hp : e.path = ""
    · have hre : ruleError seen e = some "Endpoint path cannot be empty" := by
        unfold ruleError
        rw [if_pos hp]
      exact validateFrom_cons_error seen e rest _ hre
    · have ht : e.kafka_topic ≠ "" := htop e (List.mem_cons_self e rest)
      have hs : e.path ∉ seen := hseen e (List.mem_cons_self e rest)
      have hre : ruleError seen e = none :=
        (ruleError_eq_none_iff seen e).mpr ⟨hp, ht, hs⟩
      rw [validateFrom_cons_ok seen e rest hre]
      obtain ⟨hhd, hnd'⟩ : (∀ x ∈ rest, ¬ x.path = e.path) ∧
          (rest.map EndpointConfig.path).Nodup := by simpa using hnd
      refine ih (seen ++ [e.path]) (fun r hr => htop r (List.mem_cons_of_mem _ hr))
        hnd' ?_ ?_
      · intro r hr hm
        rcases List.mem_append.mp hm with hm' | hm'
        · exact hseen r (List.mem_cons_of_mem _ hr) hm'
        · have : r.path = e.path := by simpa using hm'
          exact hhd r hr this
      · obtain ⟨r, hr, hrp⟩ := hex
        rcases List.mem_cons.mp hr with rfl | hr'
        · exact absurd hrp hp
        · exact ⟨r, hr', hrp⟩

lemma validateFrom_emptyTopic (rules : List EndpointConfig) :
    ∀ (seen : List String) (p : String),
      (∀ r ∈ rules, r.path ≠ "") →
      (rules.map EndpointConfig.path).Nodup →
      (∀ r ∈ rules, r.path ∉ seen) →
      firstEmptyTopic rules = some p →
      validateFrom seen rules =
        Except.error ("Kafka topic for path " ++ p ++ " cannot be empty") := by
  induction rules with
  | nil => intro seen p _ _ _ hfe; simp [firstEmptyTopic] at hfe
  | cons e rest ih =>
    intro seen p hpath hnd hseen hfe
    have hp : e.path ≠ "" := hpath e (List.mem_cons_self e rest)
    by_cases ht : e.kafka_topic = ""
    · have hpe : p = e.path := by
        simp [firstEmptyTopic, ht] at hfe
        exact hfe.symm
      have hre : ruleError seen e =
          some ("Kafka topic for path " ++ e.path ++ " cannot be empty") := by
        unfold ruleError
        rw [if_neg hp, if_pos ht]
      rw [hpe]
      exact validateFrom_cons_error seen e rest _ hre
    · have hfe' : firstEmptyTopic rest = some p := by
        simpa [firstEmptyTopic, ht] using hfe
      have hs : e.path ∉ seen := hseen e (List.mem_cons_self e rest)
      have hre : ruleError seen e = none :=
        (ruleError_eq_none_iff seen e).mpr ⟨hp, ht, hs⟩
      rw [validateFrom_cons_ok seen e rest hre]
      obtain ⟨hhd, hnd'⟩ : (∀ x ∈ rest, ¬ x.path = e.path) ∧
          (rest.map EndpointConfig.path).Nodup := by simpa using hnd
      refine ih (seen ++ [e.path]) p
        (fun r hr => hpath r (List.mem_cons_of_mem _ hr)) hnd' ?_ hfe'
      intro r hr hm
      rcases List.mem_append.mp hm with hm' | hm'
      · exact hseen r (List.mem_cons_of_mem _ hr) hm'
      · have : r.path = e.path := by simpa using hm'
        exact hhd r hr this

lemma validateFrom_append (pre : List EndpointConfig) :
    ∀ (seen : List String) (e : EndpointConfig) (post : List EndpointConfig)
      (msg : String),
      (∀ i (h : i < pre.length),
        ruleError (seen ++ (pre.take i).map EndpointConfig.path) (pre.get ⟨i, h⟩) = none) →
      ruleError (seen ++ pre.map EndpointConfig.path) e = some msg →
      validateFrom seen (pre ++ e :: post) = Except.error msg := by
  induction pre with
  | nil =>
    intro seen e post msg _ he
    simp only [List.map_nil, List.append_nil] at he
    exact validateFrom_cons_error seen e post msg he
  | cons q pre' ih =>
    intro seen e post msg hpre he
    have h0 : ruleError seen q = none := by
      have := hpre 0 (by simp)
      simpa using this
    rw [List.cons_append, validateFrom_cons_ok seen q _ h0]
    refine ih (seen ++ [q.path]) e post msg ?_ ?_
    · intro i h
      have := hpre (i + 1) (by simpa using Nat.succ_lt_succ h)
      simpa [List.append_assoc] using this
    · simpa [List.append_assoc] using he

lemma endpointHandler_fst (topic : String) (partition : Int)
    (send : ProducerRecord → DeliveryResult) (body : List UInt8) :
    (endpointHandler topic partition send body).1 =
      [{ topic := topic, partition := partition, payload := body, key := "" }] := by
  unfold endpointHandler
  dsimp only
  split <;> rfl

lemma endpointHandler_snd (topic : String) (partition : Int)
    (send : ProducerRecord → DeliveryResult) (body : List UInt8) :
    (endpointHandler topic partition send body).2 =
      match send { topic := topic, partition := partition, payload := body, key := "" } with
      | DeliveryResult.delivered _ _ =>
        { status := 200, body := RespBody.json (successJson topic partition) }
      | DeliveryResult.failed e =>
        { status := 500, body := RespBody.json (errorJson e) } := by
  unfold endpointHandler
  dsimp only
  split <;> rfl

lemma dispatch_post_found (rules : List EndpointConfig)
    (send : ProducerRecord → DeliveryResult) (e : EndpointConfig) (body : List UInt8)
    (he : e ∈ rules) (hnd : (rules.map EndpointConfig.path).Nodup) :
    dispatch rules send Method.post e.path body =
      endpointHandler e.kafka_topic e.kafka_partition send body := by
  unfold dispatch
  rw [if_neg (by rintro ⟨h, -⟩; cases h), if_pos rfl,
    find?_eq_of_mem_nodup rules e he hnd]

/-! ### Claim theorems -/

/-- C1: for every configured rule with path p, topic T and partition N, a
POST to p with body P makes exactly one publish call, with topic T,
partition N, payload P byte-for-byte, and an empty message key; the body
is forwarded untouched. -/
theorem post_publishes_body_verbatim (rules : List EndpointConfig)
    (send : ProducerRecord → DeliveryResult) (e : EndpointConfig) (body : List UInt8)
    (he : e ∈ rules) (hnd : (rules.map EndpointConfig.path).Nodup) :
    (dispatch rules send Method.post e.path body).1 =
      [{ topic := e.kafka_topic, partition := e.kafka_partition,
         payload := body, key := "" }] := by
  rw [dispatch_post_found rules send e body he hnd, endpointHandler_fst]

theorem post_publishes_body_verbatim_witness :
    (dispatch [{ path := "/events", kafka_topic := "events-raw", kafka_partition := 0 }]
        (fun _ => DeliveryResult.delivered 0 0) Method.post "/events"
        [104, 101, 108, 108, 111]).1 =
      [{ topic := "events-raw", partition := 0,
         payload := [104, 101, 108, 108, 111], key := "" }] :=
  post_publishes_body_verbatim _ _
    { path := "/events", kafka_topic := "events-raw", kafka_partition := 0 } _
    (by simp) (by simp)

/-- C2: the response for a POST to a configured path is determined solely
by the publish outcome: 200 with the JSON success body naming the
configured topic and partition on success, 500 with the JSON error body
carrying the broker-reported error string on failure; the match is total,
so every such request gets exactly one response. -/
theorem response_reflects_delivery (rules : List EndpointConfig)
    (send : ProducerRecord → DeliveryResult) (e : EndpointConfig) (body : List UInt8)
    (he : e ∈ rules) (hnd : (rules.map EndpointConfig.path).Nodup) :
    (dispatch rules send Method.post e.path body).2 =
      match send { topic := e.kafka_topic, partition := e.kafka_partition,
                   payload := body, key := "" } with
      | DeliveryResult.delivered _ _ =>
        { status := 200, body := RespBody.json (successJson e.kafka_topic e.kafka_partition) }
      | DeliveryResult.failed err =>
        { status := 500, body := RespBody.json (errorJson err) } := by
  rw [dispatch_post_found rules send e body he hnd, endpointHandler_snd]

theorem response_reflects_delivery_witness :
    (dispatch [{ path := "/events", kafka_topic := "events-raw", kafka_partition := 0 }]
        (fun _ => DeliveryResult.failed "broker not available") Method.post "/events"
        [104, 101, 108, 108, 111]).2 =
      { status := 500, body := RespBody.json (errorJson "broker not available") } :=
  response_reflects_delivery _ _
    { path := "/events", kafka_topic := "events-raw", kafka_partition := 0 } _
    (by simp) (by simp)

/-- C7: every GET to the health path answers 200 with body "OK",
whatever the configured rules, the broker behaviour, or how many times it
is called. -/
theorem health_always_ok (rules : List EndpointConfig)
    (send : ProducerRecord → DeliveryResult) (body : List UInt8) (n : Nat) :
    dispatch rules send Method.get "/health" body = ([], health_check)
    ∧ ((List.range n).map (fun _ => dispatch rules send Method.get "/health" body)
        = List.replicate n ([], health_check))
    ∧ health_check = { status := 200, body := RespBody.text "OK" } := by
  have h1 : dispatch rules send Method.get "/health" body = ([], health_check) := rfl
  refine ⟨h1, ?_, rfl⟩
  simp only [h1, List.map_const', List.length_range]

/-- C8: with the relevant environment variables unset, the resolved
runtime configuration takes its defaults: host 127.0.0.1 (0.0.0.0 when
PUBLIC_ACCESS is "true"), port 8080, and all four Kafka timeouts 5000 ms;
resolution is total, so an absent variable is never an error. -/
theorem env_defaults (env : List (String × String)) :
    (getEnv env "HOST" = none → getEnv env "PUBLIC_ACCESS" = none →
      (resolveConfig env).host = "127.0.0.1")
    ∧ (getEnv env "HOST" = none → getEnv env "PUBLIC_ACCESS" = some "true" →
      (resolveConfig env).host = "0.0.0.0")
    ∧ (getEnv env "PORT" = none → (resolveConfig env).port = "8080")
    ∧ (getEnv env "KAFKA_MESSAGE_TIMEOUT_MS" = none →
      (resolveConfig env).message_timeout = "5000")
    ∧ (getEnv env "KAFKA_DELIVERY_TIMEOUT_MS" = none →
      (resolveConfig env).delivery_timeout = "5000")
    ∧ (getEnv env "KAFKA_REQUEST_TIMEOUT_MS" = none →
      (resolveConfig env).request_timeout = "5000")
    ∧ (getEnv env "KAFKA_SOCKET_TIMEOUT_MS" = none →
      (resolveConfig env).socket_timeout = "5000") := by
  refine ⟨?_, ?_, ?_, ?_, ?_, ?_, ?_⟩
  · intro h1 h2; simp [resolveConfig, h1, h2]
  · intro h1 h2; simp [resolveConfig, h1, h2]
  · intro h1; simp [resolveConfig, h1]
  · intro h1; simp [resolveConfig, h1]
  · intro h1; simp [resolveConfig, h1]
  · intro h1; simp [resolveConfig, h1]
  · intro h1; simp [resolveConfig, h1]

theorem env_defaults_witness :
    (resolveConfig []).host = "127.0.0.1" ∧ (resolveConfig []).port = "8080"
    ∧ (resolveConfig []).message_timeout = "5000"
    ∧ (resolveConfig []).delivery_timeout = "5000"
    ∧ (resolveConfig []).request_timeout = "5000"
    ∧ (resolveConfig []).socket_timeout = "5000" :=
  ⟨(env_defaults []).1 rfl rfl, (env_defaults []).2.2.1 rfl,
   (env_defaults []).2.2.2.1 rfl, (env_defaults []).2.2.2.2.1 rfl,
   (env_defaults []).2.2.2.2.2.1 rfl, (env_defaults []).2.2.2.2.2.2 rfl⟩

/-- C9: PUBLIC_ACCESS matters only when HOST is unset; a set HOST is used
verbatim, and the wildcard bind happens only when PUBLIC_ACCESS is the
exact string "true" (any other value leaves 127.0.0.1). -/
theorem host_resolution (env : List (String × String)) :
    (∀ h, getEnv env "HOST" = some h → (resolveConfig env).host = h)
    ∧ (∀ v, getEnv env "HOST" = none → getEnv env "PUBLIC_ACCESS" = some v →
        v ≠ "true" → (resolveConfig env).host = "127.0.0.1")
    ∧ (getEnv env "HOST" = none → getEnv env "PUBLIC_ACCESS" = some "true" →
        (resolveConfig env).host = "0.0.0.0") := by
  refine ⟨?_, ?_, ?_⟩
  · intro h hH; simp [resolveConfig, hH]
  · intro v hH hP hv; simp [resolveConfig, hH, hP, hv]
  · intro hH hP; simp [resolveConfig, hH, hP]

theorem host_resolution_witness :
    (resolveConfig [("HOST", "10.1.2.3"), ("PUBLIC_ACCESS", "true")]).host = "10.1.2.3"
    ∧ (resolveConfig [("PUBLIC_ACCESS", "TRUE")]).host = "127.0.0.1"
    ∧ (resolveConfig [("PUBLIC_ACCESS", "true")]).host = "0.0.0.0" :=
  ⟨(host_resolution _).1 "10.1.2.3" rfl,
   (host_resolution _).2.1 "TRUE" rfl rfl (by decide),
   (host_resolution _).2.2 rfl rfl⟩

/-- C3 counterexample: a configuration whose two rules share the path
"/a" but where the first rule's topic is empty fails with the empty-topic
error, not with a duplicate-path error naming "/a". -/
theorem duplicate_path_counterexample :
    validateEndpoints [{ path := "/a", kafka_topic := "", kafka_partition := 0 },
                       { path := "/a", kafka_topic := "x", kafka_partition := 1 }] =
      Except.error "Kafka topic for path /a cannot be empty"
    ∧ ("Kafka topic for path /a cannot be empty" : String) ≠ "Duplicate path: /a" := by
  exact ⟨rfl, by decide⟩

/-- C3 (amended): a configuration with two rules sharing a path always
fails validation and the server never starts; when additionally every
path is non-empty and every topic is non-empty, the error is the
duplicate-path error naming a path that occurs at least twice. -/
theorem duplicate_path_rejected (rules : List EndpointConfig)
    (hdup : ¬ (rules.map EndpointConfig.path).Nodup) :
    (∃ msg, validateEndpoints rules = Except.error msg)
    ∧ (∀ pc meta, ∃ msg, startServer rules pc meta = StartupOutcome.validationError msg)
    ∧ ((∀ r ∈ rules, r.path ≠ "" ∧ r.kafka_topic ≠ "") →
        ∃ p, 2 ≤ (rules.map EndpointConfig.path).count p ∧
          validateEndpoints rules = Except.error ("Duplicate path: " ++ p)) := by
  have hfail : ∃ msg, validateEndpoints rules = Except.error msg := by
    rcases hv : validateEndpoints rules with msg | u
    · exact ⟨msg, rfl⟩
    · exfalso
      cases u
      exact hdup ((validateFrom_eq_ok_iff rules []).mp hv).2
  refine ⟨hfail, ?_, ?_⟩
  · intro pc meta
    obtain ⟨msg, hmsg⟩ := hfail
    exact ⟨msg, by simp [startServer, validateEndpoints] at hmsg ⊢; simp [hmsg]⟩
  · intro hne
    have h := validateFrom_dup rules [] hne (fun hc => hdup hc.1)
    simpa using h

theorem duplicate_path_rejected_witness :
    ∃ p, 2 ≤ (([{ path := "/a", kafka_topic := "t", kafka_partition := 0 },
                 { path := "/a", kafka_topic := "u", kafka_partition := 1 }] :
                List EndpointConfig).map EndpointConfig.path).count p ∧
      validateEndpoints [{ path := "/a", kafka_topic := "t", kafka_partition := 0 },
                         { path := "/a", kafka_topic := "u", kafka_partition := 1 }] =
        Except.error ("Duplicate path: " ++ p) :=
  (duplicate_path_rejected _ (by decide)).2.2 (by decide)

/-- C4 counterexample: a configuration containing a rule with an empty
kafka_topic (the third rule) fails with a duplicate-path error for the
earlier duplicated path "/a", not with an empty-topic (or empty-path)
error. -/
theorem empty_field_error_counterexample :
    (∃ r ∈ ([{ path := "/a", kafka_topic := "t", kafka_partition := 0 },
             { path := "/a", kafka_topic := "t", kafka_partition := 1 },
             { path := "/b", kafka_topic := "", kafka_partition := 2 }] :
            List EndpointConfig), r.kafka_topic = "")
    ∧ validateEndpoints [{ path := "/a", kafka_topic := "t", kafka_partition := 0 },
                         { path := "/a", kafka_topic := "t", kafka_partition := 1 },
                         { path := "/b", kafka_topic := "", kafka_partition := 2 }] =
        Except.error "Duplicate path: /a"
    ∧ ("Duplicate path: /a" : String) ≠ "Kafka topic for path /b cannot be empty"
    ∧ ("Duplicate path: /a" : String) ≠ "Endpoint path cannot be empty" := by
  exact ⟨by decide, rfl, by decide, by decide⟩

/-- C4 (amended): a configuration with an empty path or an empty topic
always fails validation; the specific error follows the loop's check
order: with all topics non-empty and duplicate-free paths, an empty path
yields the empty-path error; with all paths non-empty and duplicate-free,
an empty topic yields the empty-topic error naming the first offending
rule's path. -/
theorem empty_field_rejected (rules : List EndpointConfig)
    (hbad : ∃ r ∈ rules, r.path = "" ∨ r.kafka_topic = "") :
    (∃ msg, validateEndpoints rules = Except.error msg)
    ∧ ((∀ r ∈ rules, r.kafka_topic ≠ "") → (rules.map EndpointConfig.path).Nodup →
        validateEndpoints rules = Except.error "Endpoint path cannot be empty")
    ∧ (∀ p, (∀ r ∈ rules, r.path ≠ "") → (rules.map EndpointConfig.path).Nodup →
        firstEmptyTopic rules = some p →
        validateEndpoints rules =
          Except.error ("Kafka topic for path " ++ p ++ " cannot be empty")) := by
  refine ⟨?_, ?_, ?_⟩
  · rcases hv : validateEndpoints rules with msg | u
    · exact ⟨msg, rfl⟩
    · exfalso
      cases u
      obtain ⟨hall, -⟩ := (validateFrom_eq_ok_iff rules []).mp hv
      obtain ⟨r, hr, hcase⟩ := hbad
      obtain ⟨h1, h2, -⟩ := hall r hr
      rcases hcase with h | h
      · exact h1 h
      · exact h2 h
  · intro htop hnd
    apply validateFrom_emptyPath rules [] htop hnd (by simp)
    obtain ⟨r, hr, hcase⟩ := hbad
    rcases hcase with h | h
    · exact ⟨r, hr, h⟩
    · exact absurd h (htop r hr)
  · intro p hpath hnd hfe
    exact validateFrom_emptyTopic rules [] p hpath hnd (by simp) hfe

theorem empty_field_rejected_witness :
    validateEndpoints [{ path := "", kafka_topic := "t", kafka_partition := 0 }] =
      Except.error "Endpoint path cannot be empty"
    ∧ validateEndpoints [{ path := "/a", kafka_topic := "", kafka_partition := 0 }] =
      Except.error "Kafka topic for path /a cannot be empty" :=
  ⟨(empty_field_rejected _ (by decide)).2.1 (by decide) (by decide),
   (empty_field_rejected _ (by decide)).2.2 "/a" (by decide) (by decide) rfl⟩

/-- C5: a configuration whose paths are all unique and non-empty and
whose topics are all non-empty validates successfully; exactly one route
per rule is registered plus the fixed health route; lookup of any
configured path gives that rule's (topic, partition); any other path is a
routing miss and a POST to it is answered 404. -/
theorem valid_config_serves (rules : List EndpointConfig)
    (hne : ∀ r ∈ rules, r.path ≠ "" ∧ r.kafka_topic ≠ "")
    (hnd : (rules.map EndpointConfig.path).Nodup) :
    validateEndpoints rules = Except.ok ()
    ∧ (registeredRoutes rules).length = rules.length + 1
    ∧ ({ method := Method.get, path := "/health" } : Route) ∈ registeredRoutes rules
    ∧ (∀ e ∈ rules,
        ({ method := Method.post, path := e.path } : Route) ∈ registeredRoutes rules)
    ∧ (∀ e ∈ rules, lookupEndpoint rules e.path = some (e.kafka_topic, e.kafka_partition))
    ∧ (∀ p, (∀ e ∈ rules, e.path ≠ p) →
        lookupEndpoint rules p = none
        ∧ ∀ send body, dispatch rules send Method.post p body = ([], notFound)) := by
  refine ⟨?_, ?_, ?_, ?_, ?_, ?_⟩
  · exact (validateFrom_eq_ok_iff rules []).mpr
      ⟨fun r hr => ⟨(hne r hr).1, (hne r hr).2, by simp⟩, hnd⟩
  · simp [registeredRoutes]
  · exact List.mem_cons_self _ _
  · intro e he
    exact List.mem_cons_of_mem _ (List.mem_map_of_mem _ he)
  · intro e he
    unfold lookupEndpoint
    rw [find?_eq_of_mem_nodup rules e he hnd]
    rfl
  · intro p hp
    have hfind : rules.find? (fun e => e.path == p) = none := by
      rw [List.find?_eq_none]
      intro e he
      simpa using hp e he
    refine ⟨?_, ?_⟩
    · unfold lookupEndpoint
      rw [hfind]
      rfl
    · intro send body
      unfold dispatch
      rw [if_neg (by rintro ⟨h, -⟩; cases h), if_pos rfl, hfind]

theorem valid_config_serves_witness :
    validateEndpoints [{ path := "/events", kafka_topic := "events-raw", kafka_partition := 0 }] =
      Except.ok ()
    ∧ lookupEndpoint [{ path := "/events", kafka_topic := "events-raw", kafka_partition := 0 }]
        "/events" = some ("events-raw", 0)
    ∧ lookupEndpoint [{ path := "/events", kafka_topic := "events-raw", kafka_partition := 0 }]
        "/unregistered" = none := by
  have h := valid_config_serves
    [{ path := "/events", kafka_topic := "events-raw", kafka_partition := 0 }]
    (by decide) (by decide)
  exact ⟨h.1,
    h.2.2.2.2.1 { path := "/events", kafka_topic := "events-raw", kafka_partition := 0 }
      (by decide),
    (h.2.2.2.2.2 "/unregistered" (by decide)).1⟩

/-- C6: whatever the connectivity check observes (brokers present, zero
brokers, or a failed metadata query), startup proceeds to serving; the
check only produces warning/info log lines and never aborts. -/
theorem connectivity_advisory (rules : List EndpointConfig)
    (pc : Except String Unit) (meta : MetadataResult)
    (hv : validateEndpoints rules = Except.ok ()) (hp : pc = Except.ok ()) :
    startServer rules pc meta =
      StartupOutcome.serving (connectivityCheck meta) (registeredRoutes rules)
    ∧ ∀ l ∈ connectivityCheck meta, l.1 = LogLevel.warn ∨ l.1 = LogLevel.info := by
  constructor
  · unfold startServer
    rw [hv, hp]
  · intro l hl
    rcases meta with brokers | e
    · simp only [connectivityCheck] at hl
      by_cases hb : brokers.length = 0
      · rw [if_pos hb] at hl
        have : l = (LogLevel.warn, "No Kafka brokers found in metadata") := by
          simpa using hl
        left
        rw [this]
      · rw [if_neg hb] at hl
        rcases List.mem_cons.mp hl with h | h
        · right; rw [h]
        · obtain ⟨b, -, hlb⟩ := List.mem_map.mp h
          right; rw [← hlb]
    · simp only [connectivityCheck] at hl
      rcases List.mem_cons.mp hl with h | h
      · left; rw [h]
      · right
        have : l = (LogLevel.info,
            "Server will start anyway, but Kafka operations may fail") := by
          simpa using h
        rw [this]

theorem connectivity_advisory_witness :
    startServer [] (Except.ok ()) (MetadataResult.err "timed out") =
      StartupOutcome.serving (connectivityCheck (MetadataResult.err "timed out"))
        (registeredRoutes []) :=
  (connectivity_advisory [] (Except.ok ()) (MetadataResult.err "timed out") rfl rfl).1

/-- C10: the validation loop examines rules in sequence order, checking
empty path, then empty topic, then duplication within each rule; when
every rule before position i passes all its checks and rule i fails one,
the reported error is rule i's first failing check.  In particular a rule
with an empty path and an empty topic reports the empty-path error, and
two rules sharing an empty path report the empty-path error rather than
the duplicate-path error. -/
theorem validation_reports_first_violation
    (pre post : List EndpointConfig) (e : EndpointConfig) (msg : String)
    (hpre : ∀ i (h : i < pre.length),
      ruleError ((pre.take i).map EndpointConfig.path) (pre.get ⟨i, h⟩) = none)
    (he : ruleError (pre.map EndpointConfig.path) e = some msg) :
    validateEndpoints (pre ++ e :: post) = Except.error msg := by
  apply validateFrom_append pre [] e post msg
  · intro i h
    simpa using hpre i h
  · simpa using he

theorem validation_reports_first_violation_witness :
    validateEndpoints [{ path := "", kafka_topic := "", kafka_partition := 0 },
                       { path := "", kafka_topic := "x", kafka_partition := 1 }] =
      Except.error "Endpoint path cannot be empty" :=
  validation_reports_first_violation []
    [{ path := "", kafka_topic := "x", kafka_partition := 1 }]
    { path := "", kafka_topic := "", kafka_partition := 0 } _
    (fun i h => absurd h (Nat.not_lt_zero i)) rfl

end Collector
